import Mathlib

/- Verification of the two database engine-spec adapter modules
`superset/db_engine_specs/apex.py` (ApexEngineSpec) and
`superset/db_engine_specs/cmic.py` (CmicEngineSpec).

The shallow embedding below translates the data model and the operations of
the two modules: the error-classification pattern tables (`custom_errors`),
the Cmic parameter validation (`validate_parameters`), the remote POST helper
(`_do_post`, here `do_post`), and the URI builder/parser pair
(`build_sqlalchemy_uri` / `get_parameters_from_uri`).

The remote HTTP call performed by `_do_post` is abstracted by a `PostResult`
value describing what `requests.post` + `response.json()` produced on the
given invocation: either a parsed JSON object payload or a raised exception.
Exceptions are modelled by the inductive `Exc`; Python's dict/string
indexing failures (`KeyError`, `TypeError`) are modelled explicitly because
`_do_post` evaluates `payload["error"]["message"]` before raising. -/

/-- Severity levels of `superset.errors.ErrorLevel` (the two used here). -/
inductive ErrorLevel where
  | WARNING
  | ERROR
deriving DecidableEq

/-- The error categories of `superset.errors.SupersetErrorType` used by the
two adapter modules. -/
inductive SupersetErrorType where
  | CONNECTION_INVALID_HOSTNAME_ERROR
  | CONNECTION_HOST_DOWN_ERROR
  | SYNTAX_ERROR
  | CONNECTION_MISSING_PARAMETERS_ERROR
  | CONNECTION_ACCESS_DENIED_ERROR
deriving DecidableEq

/-- The structured `extra` payload attached to a `SupersetError`: the two
adapters only ever attach `{"missing": [...]}`, `{"invalid": [...]}` or an
empty dict. -/
inductive ExtraData where
  | missing (fields : List String)
  | invalid (fields : List String)
  | empty
deriving DecidableEq

/-- Embeds `superset.errors.SupersetError` (the fields the adapters set). -/
structure SupersetError where
  message : String
  error_type : SupersetErrorType
  level : ErrorLevel
  extra : ExtraData
deriving DecidableEq

/- Regular-expression matching.  Each compiled pattern of the source is a
literal prefix followed by one named capture group, either lazy and
terminated by a further literal (`pre(?P<g>.*?)post`) or greedy and running
to the end of the line (`pre(?P<g>.*)`).  `re.search` semantics: the match
starts at the leftmost position where the whole pattern matches, `.` does not
match a newline (no DOTALL flag), lazy groups capture as little as possible,
greedy groups as much as possible. -/

/-- Shortest capture (containing no newline) that is followed by the literal
`post`, as matched by a lazy group `(?P<g>.*?)` followed by `post`. -/
def captureLazy (post : List Char) : List Char → Option (List Char)
  | [] => if post.isPrefixOf ([] : List Char) then some [] else none
  | c :: rest =>
    if post.isPrefixOf (c :: rest) then some []
    else if c = '\n' then none
    else match captureLazy post rest with
      | some cap => some (c :: cap)
      | none => none

/-- Longest capture from the current position that contains no newline, as
matched by a greedy group `(?P<g>.*)` at the end of a pattern. -/
def captureGreedy : List Char → List Char
  | [] => []
  | c :: rest => if c = '\n' then [] else c :: captureGreedy rest

/-- `re.search` for a pattern `pre(?P<g>.*?)post`: the capture of the
leftmost successful match. -/
def searchLazy (pre post : List Char) : List Char → Option (List Char)
  | [] => if pre.isPrefixOf ([] : List Char) then captureLazy post [] else none
  | c :: rest =>
    if pre.isPrefixOf (c :: rest) then
      match captureLazy post ((c :: rest).drop pre.length) with
      | some cap => some cap
      | none => searchLazy pre post rest
    else searchLazy pre post rest

/-- `re.search` for a pattern `pre(?P<g>.*)`: the capture of the leftmost
match (a greedy trailing group always succeeds once `pre` is found). -/
def searchGreedy (pre : List Char) : List Char → Option (List Char)
  | [] => if pre.isPrefixOf ([] : List Char) then some [] else none
  | c :: rest =>
    if pre.isPrefixOf (c :: rest) then some (captureGreedy ((c :: rest).drop pre.length))
    else searchGreedy pre rest

/-- One piece of a message template: literal text or a `%(name)s`
placeholder. -/
inductive TemplatePart where
  | lit (s : String)
  | group (name : String)

/-- Render a message template against the dictionary of named captures
(`message % params` in the source); a missing name renders as the empty
string. -/
def renderTemplate (parts : List TemplatePart) (groups : List (String × String)) : String :=
  parts.foldl
    (fun acc part =>
      acc ++ match part with
        | TemplatePart.lit s => s
        | TemplatePart.group n => (List.lookup n groups).getD "")
    ""

/-- One entry of a `custom_errors` table: the compiled pattern (embedded as
its matching function returning the dict of named captures), the message
template, the error category and the structured extra data. -/
structure ErrorPattern where
  matcher : String → Option (List (String × String))
  message : List TemplatePart
  error_type : SupersetErrorType
  extra : ExtraData

/-- The classified error built from a matching pattern entry. -/
structure ClassifiedError where
  message : String
  error_type : SupersetErrorType
  level : ErrorLevel
  extra : ExtraData

/-- The `ClassifiedError` produced by pattern entry `p` for the named
captures `groups`. -/
def mkClassifiedError (p : ErrorPattern) (groups : List (String × String)) : ClassifiedError :=
  { message := renderTemplate p.message groups
    error_type := p.error_type
    level := ErrorLevel.ERROR
    extra := p.extra }

/-- Modelled from the spec: the host's error-classification routine
(`classify`, §4.1), whose code lives in the engine-spec base class and is not
among the repository files; only the pattern tables it consumes are.  It
iterates the pattern table in declaration order, the first matching pattern
wins, named captures are substituted into the message template, and no match
at all yields no classification. -/
def classify (text : String) : List ErrorPattern → Option ClassifiedError
  | [] => none
  | p :: rest =>
    match p.matcher text with
    | some groups => some (mkClassifiedError p groups)
    | none => classify text rest

namespace Apex

/-- Embeds `CONNECTION_INVALID_HOSTNAME_REGEX = re.compile("Unknown Apex
server host '(?P<hostname>.*?)'")` as its matching function. -/
def CONNECTION_INVALID_HOSTNAME_REGEX (text : String) : Option (List (String × String)) :=
  (searchLazy "Unknown Apex server host '".data "'".data text.data).map
    (fun cap => [("hostname", String.mk cap)])

/-- Embeds `CONNECTION_HOST_DOWN_REGEX = re.compile("Can't connect to Apex
server on '(?P<hostname>.*?)'")`. -/
def CONNECTION_HOST_DOWN_REGEX (text : String) : Option (List (String × String)) :=
  (searchLazy "Can't connect to Apex server on '".data "'".data text.data).map
    (fun cap => [("hostname", String.mk cap)])

/-- Embeds `SYNTAX_ERROR_REGEX = re.compile("check the manual that
corresponds to your Apex server version for the right syntax to use near
'(?P<server_error>.*)")` (the source adjoins the two string literals with no
separator). -/
def SYNTAX_ERROR_REGEX (text : String) : Option (List (String × String)) :=
  (searchGreedy "check the manual that corresponds to your Apex server version for the right syntax to use near '".data text.data).map
    (fun cap => [("server_error", String.mk cap)])

/-- Embeds `ApexEngineSpec.custom_errors`, in declaration order. -/
def custom_errors : List ErrorPattern :=
  [ { matcher := CONNECTION_INVALID_HOSTNAME_REGEX
      message := [TemplatePart.lit "Unknown Apex server host \"", TemplatePart.group "hostname", TemplatePart.lit "\"."]
      error_type := SupersetErrorType.CONNECTION_INVALID_HOSTNAME_ERROR
      extra := ExtraData.invalid ["host"] }
  , { matcher := CONNECTION_HOST_DOWN_REGEX
      message := [TemplatePart.lit "The host \"", TemplatePart.group "hostname", TemplatePart.lit "\" might be down and can't be reached."]
      error_type := SupersetErrorType.CONNECTION_HOST_DOWN_ERROR
      extra := ExtraData.invalid ["host", "port"] }
  , { matcher := SYNTAX_ERROR_REGEX
      message := [TemplatePart.lit "Please check your query for syntax errors near \"", TemplatePart.group "server_error", TemplatePart.lit "\". Then, try running your query again."]
      error_type := SupersetErrorType.SYNTAX_ERROR
      extra := ExtraData.empty }
  ]

end Apex

namespace Cmic

/-- Embeds `SYNTAX_ERROR_REGEX = re.compile('SQLError: near
"(?P<server_error>.*?)": syntax error')` of cmic.py. -/
def SYNTAX_ERROR_REGEX (text : String) : Option (List (String × String)) :=
  (searchLazy "SQLError: near \"".data "\": syntax error".data text.data).map
    (fun cap => [("server_error", String.mk cap)])

/-- Embeds `CmicEngineSpec.custom_errors` (a single syntax-error entry). -/
def custom_errors : List ErrorPattern :=
  [ { matcher := SYNTAX_ERROR_REGEX
      message := [TemplatePart.lit "Please check your query for syntax errors near \"", TemplatePart.group "server_error", TemplatePart.lit "\". Then, try running your query again."]
      error_type := SupersetErrorType.SYNTAX_ERROR
      extra := ExtraData.empty }
  ]

/-- A JSON value, as `response.json()` returns it (the shapes relevant to the
`_do_post` error-payload handling). -/
inductive Json where
  | str (s : String)
  | obj (fields : List (String × Json))
  | null

/-- The exceptions that can cross the `_do_post` / `validate_parameters`
boundary.  `supersetException` is `superset.exceptions.SupersetException`,
`connectionError` is `requests.exceptions.ConnectionError`; `keyError` and
`typeError` model Python's indexing failures inside
`payload["error"]["message"]`; `otherException` stands for any further
exception raised by `requests.post` or `response.json()` (for example a
timeout or a JSON-decoding failure). -/
inductive Exc where
  | supersetException (msg : Json)
  | connectionError
  | keyError (key : String)
  | typeError
  | otherException (name : String)

/-- What the network produced on one invocation of `requests.post` +
`response.json()` inside `_do_post`: a parsed JSON object payload, or a
raised exception. -/
inductive PostResult where
  | ok (payload : List (String × Json))
  | raise (e : Exc)

/-- Python subscription `v[key]` on a JSON value: a lookup on a dict
(`KeyError` when the key is absent), a `TypeError` on anything else. -/
def jsonIndex (v : Json) (key : String) : Except Exc Json :=
  match v with
  | Json.obj fields =>
    match List.lookup key fields with
    | some w => Except.ok w
    | none => Except.error (Exc.keyError key)
  | _ => Except.error Exc.typeError

/-- Embeds `CmicEngineSpec._do_post`: run the POST (abstracted by `remote`),
then `if "error" in payload: raise SupersetException(payload["error"]["message"])`,
else return the payload unchanged.  Python evaluates
`payload["error"]["message"]` before raising, so a malformed error value
raises the indexing exception instead. -/
def do_post (remote : PostResult) : Except Exc (List (String × Json)) :=
  match remote with
  | PostResult.raise e => Except.error e
  | PostResult.ok payload =>
    match List.lookup "error" payload with
    | some v =>
      match jsonIndex v "message" with
      | Except.ok m => Except.error (Exc.supersetException m)
      | Except.error e => Except.error e
    | none => Except.ok payload

/-- The `parameters` dict of a validation request: arbitrary string keys,
each `str | None` valued (unvalidated form input). -/
def ParametersDict : Type := List (String × Option String)

/-- Embeds `CmicPropertiesType`: the request body, whose `parameters` key
may be absent (`properties.get("parameters", {})`). -/
structure CmicPropertiesType where
  parameters : Option ParametersDict

/-- Truthiness of `parameters.get(key, ())`: the key is present with a
non-null, non-empty string value. -/
def presentKey (parameters : ParametersDict) (key : String) : Bool :=
  match List.lookup key parameters with
  | some (some s) => s ≠ ""
  | _ => false

/-- Embeds `required = {"username", "password"}`. -/
def required : List String := ["username", "password"]

/-- Lexicographic code-point order on character lists: the order Python's
`sorted` compares strings by. -/
def charListLe : List Char → List Char → Bool
  | [], _ => true
  | _ :: _, [] => false
  | a :: as, b :: bs =>
    if a.toNat = b.toNat then charListLe as bs else decide (a.toNat < b.toNat)

/-- Lexicographic code-point order on strings. -/
def strLe (a b : String) : Bool := charListLe a.data b.data

/-- Embeds `sorted(required - present)`: the required fields whose value is
absent or falsy, in sorted order.  The required set has exactly the two
members `username` and `password` and `"password" < "username"`
lexicographically, so Python's `sorted` output is exactly this list. -/
def missingList (parameters : ParametersDict) : List String :=
  (if presentKey parameters "password" then [] else ["password"]) ++
  (if presentKey parameters "username" then [] else ["username"])

/-- The missing-parameters `SupersetError` that `validate_parameters` builds
for a non-empty `missing` list. -/
def mkMissingError (missing : List String) : SupersetError :=
  { message := "One or more parameters are missing: " ++ String.intercalate ", " missing
    error_type := SupersetErrorType.CONNECTION_MISSING_PARAMETERS_ERROR
    level := ErrorLevel.WARNING
    extra := ExtraData.missing missing }

/-- The errors-so-far after the missing-parameters check of
`validate_parameters` (`if missing := sorted(required - present): ...`). -/
def missingErrors (parameters : ParametersDict) : List SupersetError :=
  match missingList parameters with
  | [] => []
  | missing => [mkMissingError missing]

/-- The access-denied error appended on `except SupersetException`. -/
def accessDeniedAuthError : SupersetError :=
  { message := "Unable to authenticate to the CIMC API."
    error_type := SupersetErrorType.CONNECTION_ACCESS_DENIED_ERROR
    level := ErrorLevel.ERROR
    extra := ExtraData.invalid ["username", "password"] }

/-- The access-denied error appended on `except
requests.exceptions.ConnectionError`. -/
def accessDeniedConnectionError : SupersetError :=
  { message := "Unable to connect to the CIMC API."
    error_type := SupersetErrorType.CONNECTION_ACCESS_DENIED_ERROR
    level := ErrorLevel.ERROR
    extra := ExtraData.invalid ["username", "password"] }

/-- Embeds `CmicEngineSpec.validate_parameters`.  The missing-parameters
check runs first; then the remote POST is attempted unconditionally (the
request body is built from whatever `username`/`password` values are at
hand), `SupersetException` and `ConnectionError` are each converted into one
access-denied error, and every other exception propagates (`Except.error`).
-/
def validate_parameters (properties : CmicPropertiesType) (remote : PostResult) :
    Except Exc (List SupersetError) :=
  let parameters := properties.parameters.getD []
  let errors := missingErrors parameters
  match do_post remote with
  | Except.ok _ => Except.ok errors
  | Except.error (Exc.supersetException _) => Except.ok (errors ++ [accessDeniedAuthError])
  | Except.error Exc.connectionError => Except.ok (errors ++ [accessDeniedConnectionError])
  | Except.error e => Except.error e

/-- The except clauses of `validate_parameters`: which exceptions it
catches (`SupersetException` and `requests.exceptions.ConnectionError`). -/
def caughtByValidate : Exc → Bool
  | Exc.supersetException _ => true
  | Exc.connectionError => true
  | _ => false

/-- Embeds `CmicParametersType` (`username: str | None`,
`password: str | None`). -/
structure CmicParametersType where
  username : Option String
  password : Option String
deriving DecidableEq

/-- Embeds `engine = "mysql"`. -/
def engine : String := "mysql"

/-- Embeds `default_driver = "mysqldb"`. -/
def default_driver : String := "mysqldb"

/-- Python `str.rstrip("+")` on a character list. -/
def rstripPlusChars (l : List Char) : List Char :=
  (l.reverse.dropWhile (fun c => c = '+')).reverse

/-- The drivername `f"{cls.engine}+{cls.default_driver}".rstrip("+")` passed
to `URL.create`. -/
def drivername : String :=
  String.mk (rstripPlusChars (engine ++ "+" ++ default_driver).data)

/-- A character a URL component keeps unescaped.  Modelled from the spec:
the URI rendering (sqlalchemy `URL.create`/`str`, not among the repository
files) percent-escapes every character outside this set, so that the
construction is deterministic and reversible; alphanumerics, `_.-~` and the
ones of `safe=" +"` pass through. -/
def isSafeChar (c : Char) : Bool :=
  c.isAlphanum || c = '_' || c = '.' || c = '-' || c = '~' || c = ' ' || c = '+'

/-- The hexadecimal digit characters (uppercase). -/
def hexDigit (n : Nat) : Char :=
  match n with
  | 0 => '0' | 1 => '1' | 2 => '2' | 3 => '3' | 4 => '4'
  | 5 => '5' | 6 => '6' | 7 => '7' | 8 => '8' | 9 => '9'
  | 10 => 'A' | 11 => 'B' | 12 => 'C' | 13 => 'D' | 14 => 'E' | _ => 'F'

/-- The value of a hexadecimal digit character (as the escaper emits them:
`0`-`9` and uppercase `A`-`F`). -/
def hexVal (c : Char) : Nat :=
  if c.isDigit then c.toNat - 48 else c.toNat - 55

/-- A code point as six hexadecimal digits (every Unicode code point is
below `16 ^ 6`). -/
def encodeHex6 (n : Nat) : List Char :=
  [ hexDigit (n / 1048576 % 16), hexDigit (n / 65536 % 16)
  , hexDigit (n / 4096 % 16), hexDigit (n / 256 % 16)
  , hexDigit (n / 16 % 16), hexDigit (n % 16) ]

/-- The code point of a six-digit escape. -/
def decodeHex6 (a b c d e f : Char) : Char :=
  Char.ofNat
    (hexVal a * 1048576 + hexVal b * 65536 + hexVal c * 4096 +
      hexVal d * 256 + hexVal e * 16 + hexVal f)

/-- Percent-escape a component: safe characters pass through, every other
character becomes `%` followed by six hexadecimal digits. -/
def quoteChars : List Char → List Char
  | [] => []
  | c :: rest =>
    (if isSafeChar c then [c] else '%' :: encodeHex6 c.toNat) ++ quoteChars rest

/-- Undo `quoteChars` (a malformed escape is left as it stands, as Python's
`unquote` leaves it). -/
def unquoteChars : List Char → List Char
  | [] => []
  | '%' :: a :: b :: c :: d :: e :: f :: tail => decodeHex6 a b c d e f :: unquoteChars tail
  | c :: rest => c :: unquoteChars rest

/-- Percent-escape a string component of the URL. -/
def quote (s : String) : String := String.mk (quoteChars s.data)

/-- Embeds `CmicEngineSpec.build_sqlalchemy_uri`.  Modelled from the spec
where it leaves the repository: the rendering done by sqlalchemy
`URL.create` + `str(...)` (not among the repository files) emits the
drivername, `://`, and a userinfo component from the non-null fields with
components percent-escaped; the password is rendered only together with a
username, and a rendered userinfo is terminated by `@`. -/
def build_sqlalchemy_uri (parameters : CmicParametersType) : String :=
  drivername ++ "://" ++
    (match parameters.username with
     | none => ""
     | some us =>
       quote us ++
         (match parameters.password with
          | none => ""
          | some ps => ":" ++ quote ps) ++ "@")

/-- Drop everything up to and including the first `://`. -/
def splitScheme : List Char → Option (List Char)
  | [] => none
  | ':' :: '/' :: '/' :: rest => some rest
  | _ :: rest => splitScheme rest

/-- Split a character list at the first occurrence of `sep`:
`some (before, after)`, or `none` when `sep` does not occur. -/
def splitOnce (sep : Char) : List Char → Option (List Char × List Char)
  | [] => none
  | c :: rest =>
    if c = sep then some ([], rest)
    else (splitOnce sep rest).map (fun p => (c :: p.1, p.2))

/-- Embeds `CmicEngineSpec.get_parameters_from_uri`.  Modelled from the spec
where it leaves the repository: the reverse parser (`make_url_safe`, i.e.
sqlalchemy `make_url`, not among the repository files) fails on a string
with no scheme marker, reads the userinfo before the first `@` (no userinfo
means both fields are null), splits it at the first `:` into username and
password, and percent-unescapes each component. -/
def get_parameters_from_uri (uri : String) : Option CmicParametersType :=
  match splitScheme uri.data with
  | none => none
  | some rest =>
    match splitOnce '@' rest with
    | none => some { username := none, password := none }
    | some (userinfo, _) =>
      match splitOnce ':' userinfo with
      | none => some { username := some (String.mk (unquoteChars userinfo)), password := none }
      | some (u, p) =>
        some { username := some (String.mk (unquoteChars u))
               password := some (String.mk (unquoteChars p)) }

end Cmic

/- Helper lemmas. -/

/-- `jsonIndex` never raises a `SupersetException` itself: its failures are
`KeyError` or `TypeError`. -/
theorem jsonIndex_ne_superset (v : Cmic.Json) (key : String) (m : Cmic.Json) :
    Cmic.jsonIndex v key ≠ Except.error (Cmic.Exc.supersetException m) := by
  cases v with
  | obj fields =>
    simp only [Cmic.jsonIndex]
    cases List.lookup key fields <;> simp
  | str s => simp [Cmic.jsonIndex]
  | null => simp [Cmic.jsonIndex]

/-- When both identity fields are present, the missing-parameters list is
empty. -/
theorem missingList_nil_of_present (p : Cmic.ParametersDict)
    (hu : Cmic.presentKey p "username" = true) (hp : Cmic.presentKey p "password" = true) :
    Cmic.missingList p = [] := by
  simp [Cmic.missingList, hu, hp]

/-- When both identity fields are present, the missing-parameters check
emits no error. -/
theorem missingErrors_nil_of_present (p : Cmic.ParametersDict)
    (hu : Cmic.presentKey p "username" = true) (hp : Cmic.presentKey p "password" = true) :
    Cmic.missingErrors p = [] := by
  simp [Cmic.missingErrors, missingList_nil_of_present p hu hp]

/- C7. -/

/-- C7: for the Apex invalid-hostname pattern and the input `Unknown Apex
server host 'db.example.com'`, classification returns a result whose
category is the invalid-hostname error type, whose extra data marks the
`host` field invalid, and whose rendered message contains the literal
substring `db.example.com`. -/
theorem apex_invalid_hostname_classification :
    ∃ ce, classify "Unknown Apex server host 'db.example.com'" Apex.custom_errors = some ce ∧
      ce.error_type = SupersetErrorType.CONNECTION_INVALID_HOSTNAME_ERROR ∧
      ce.extra = ExtraData.invalid ["host"] ∧
      ∃ a b, ce.message = a ++ "db.example.com" ++ b :=
  ⟨_, rfl, rfl, rfl, "Unknown Apex server host \"", "\".", rfl⟩

/- C1. -/

/-- C1 (evidence of the code bug): with empty properties the code still
consults the remote call's outcome: when the remote call raises a
connection failure, `validate_parameters` returns the missing-parameters
WARNING and additionally an access-denied error; only when the remote call
succeeds is the missing-parameters WARNING the single returned error. -/
theorem cmic_validate_empty_remote_failure :
    Cmic.validate_parameters ⟨none⟩ (Cmic.PostResult.raise Cmic.Exc.connectionError) =
      Except.ok [Cmic.mkMissingError ["password", "username"], Cmic.accessDeniedConnectionError] ∧
    Cmic.validate_parameters ⟨none⟩ (Cmic.PostResult.ok []) =
      Except.ok [Cmic.mkMissingError ["password", "username"]] :=
  ⟨rfl, rfl⟩

/- C2. -/

/-- C2 counterexample: with both fields present, the error returned on an
application-level failure payload and the error returned on a
network-level connection failure are not identical: their messages differ,
so the caller can distinguish the two causes. -/
theorem cmic_failure_causes_distinguishable :
    Cmic.validate_parameters ⟨some [("username", some "alice"), ("password", some "secret")]⟩
        (Cmic.PostResult.ok [("error", Cmic.Json.obj [("message", Cmic.Json.str "bad")])]) =
      Except.ok [Cmic.accessDeniedAuthError] ∧
    Cmic.validate_parameters ⟨some [("username", some "alice"), ("password", some "secret")]⟩
        (Cmic.PostResult.raise Cmic.Exc.connectionError) =
      Except.ok [Cmic.accessDeniedConnectionError] ∧
    Cmic.accessDeniedAuthError.message ≠ Cmic.accessDeniedConnectionError.message :=
  ⟨rfl, rfl, by decide⟩

/-- C2 (amended): for every parameters input, the two failure causes yield
errors that agree on category, severity and extra data (the invalid-fields
marking), and differ only in their message text. -/
theorem cmic_failure_errors_same_shape :
    ∀ (properties : Cmic.CmicPropertiesType) (m : Cmic.Json),
      Cmic.validate_parameters properties
          (Cmic.PostResult.ok [("error", Cmic.Json.obj [("message", m)])]) =
        Except.ok (Cmic.missingErrors (properties.parameters.getD []) ++
          [Cmic.accessDeniedAuthError]) ∧
      Cmic.validate_parameters properties (Cmic.PostResult.raise Cmic.Exc.connectionError) =
        Except.ok (Cmic.missingErrors (properties.parameters.getD []) ++
          [Cmic.accessDeniedConnectionError]) ∧
      Cmic.accessDeniedAuthError.error_type = Cmic.accessDeniedConnectionError.error_type ∧
      Cmic.accessDeniedAuthError.level = Cmic.accessDeniedConnectionError.level ∧
      Cmic.accessDeniedAuthError.extra = Cmic.accessDeniedConnectionError.extra ∧
      Cmic.accessDeniedAuthError.message ≠ Cmic.accessDeniedConnectionError.message :=
  fun _ _ => ⟨rfl, rfl, rfl, rfl, rfl, by decide⟩

/- C10. -/

/-- C10 counterexample: a payload whose `error` value is an object without
a `message` entry does contain the `error` key, yet `do_post` raises a
`KeyError`, not a `SupersetException`. -/
theorem do_post_error_without_message_not_superset :
    (List.lookup "error" [("error", Cmic.Json.obj [])]).isSome = true ∧
    Cmic.do_post (Cmic.PostResult.ok [("error", Cmic.Json.obj [])]) =
      Except.error (Cmic.Exc.keyError "message") :=
  ⟨rfl, rfl⟩

/-- C10 (amended): `do_post` raises `SupersetException m` exactly when the
payload holds an `error` entry whose value is an object with a `message`
entry `m`; with an `error` entry whose `message` subscription fails, that
indexing exception propagates instead; without an `error` key the payload
is returned unchanged. -/
theorem do_post_characterization (payload : List (String × Cmic.Json)) :
    (List.lookup "error" payload = none →
      Cmic.do_post (Cmic.PostResult.ok payload) = Except.ok payload) ∧
    (∀ v m, List.lookup "error" payload = some v →
      Cmic.jsonIndex v "message" = Except.ok m →
      Cmic.do_post (Cmic.PostResult.ok payload) =
        Except.error (Cmic.Exc.supersetException m)) ∧
    (∀ v e, List.lookup "error" payload = some v →
      Cmic.jsonIndex v "message" = Except.error e →
      Cmic.do_post (Cmic.PostResult.ok payload) = Except.error e) ∧
    (∀ m, Cmic.do_post (Cmic.PostResult.ok payload) =
        Except.error (Cmic.Exc.supersetException m) →
      ∃ v, List.lookup "error" payload = some v ∧
        Cmic.jsonIndex v "message" = Except.ok m) := by
  refine ⟨?_, ?_, ?_, ?_⟩
  · intro h; simp [Cmic.do_post, h]
  · intro v m hv hm; simp [Cmic.do_post, hv, hm]
  · intro v e hv hm; simp [Cmic.do_post, hv, hm]
  · intro m h
    cases hv : List.lookup "error" payload with
    | none => simp [Cmic.do_post, hv] at h
    | some v =>
      refine ⟨v, rfl, ?_⟩
      cases hm : Cmic.jsonIndex v "message" with
      | ok m' =>
        simp only [Cmic.do_post, hv, hm] at h
        cases h
        rfl
      | error e =>
        simp only [Cmic.do_post, hv, hm] at h
        cases h
        exact absurd hm (jsonIndex_ne_superset v "message" m)

/-- C10 witness: a well-formed error payload makes `do_post` raise a
`SupersetException` carrying the `message` value. -/
theorem do_post_characterization_witness :
    Cmic.do_post (Cmic.PostResult.ok [("error", Cmic.Json.obj [("message", Cmic.Json.str "bad")])]) =
      Except.error (Cmic.Exc.supersetException (Cmic.Json.str "bad")) :=
  (do_post_characterization _).2.1 (Cmic.Json.obj [("message", Cmic.Json.str "bad")])
    (Cmic.Json.str "bad") rfl rfl

/- C3. -/

/-- C3 counterexample: with both fields present and a remote payload that
does contain an `error` key (but a malformed one, an object without
`message`), an exception escapes `validate_parameters` instead of being
turned into an access-denied error. -/
theorem cmic_malformed_error_payload_exception_escapes :
    Cmic.validate_parameters ⟨some [("username", some "alice"), ("password", some "secret")]⟩
        (Cmic.PostResult.ok [("error", Cmic.Json.obj [])]) =
      Except.error (Cmic.Exc.keyError "message") :=
  rfl

/-- C3 (amended): with both identity fields present, a remote payload whose
`error` entry carries a `message` (or a connection-level failure) makes
`validate_parameters` return exactly one access-denied ERROR marking both
identity fields invalid, with no exception escaping. -/
theorem cmic_access_denied_on_remote_failure :
    ∀ (properties : Cmic.CmicPropertiesType) (remote : Cmic.PostResult),
      Cmic.presentKey (properties.parameters.getD []) "username" = true →
      Cmic.presentKey (properties.parameters.getD []) "password" = true →
      ((∃ payload v m, remote = Cmic.PostResult.ok payload ∧
          List.lookup "error" payload = some v ∧
          Cmic.jsonIndex v "message" = Except.ok m) ∨
        remote = Cmic.PostResult.raise Cmic.Exc.connectionError) →
      ∃ err, Cmic.validate_parameters properties remote = Except.ok [err] ∧
        err.error_type = SupersetErrorType.CONNECTION_ACCESS_DENIED_ERROR ∧
        err.level = ErrorLevel.ERROR ∧
        err.extra = ExtraData.invalid ["username", "password"] := by
  intro properties remote hu hp hrem
  have hnil := missingErrors_nil_of_present _ hu hp
  rcases hrem with ⟨payload, v, m, hok, hv, hm⟩ | hconn
  · subst hok
    refine ⟨Cmic.accessDeniedAuthError, ?_, rfl, rfl, rfl⟩
    simp [Cmic.validate_parameters, Cmic.do_post, hv, hm, hnil]
  · subst hconn
    refine ⟨Cmic.accessDeniedConnectionError, ?_, rfl, rfl, rfl⟩
    simp [Cmic.validate_parameters, Cmic.do_post, hnil]

/-- C3 witness: concrete credentials with a connection failure produce
exactly the access-denied error. -/
theorem cmic_access_denied_on_remote_failure_witness :
    Cmic.presentKey [("username", some "alice"), ("password", some "secret")] "username" = true ∧
    ∃ err, Cmic.validate_parameters
        ⟨some [("username", some "alice"), ("password", some "secret")]⟩
        (Cmic.PostResult.raise Cmic.Exc.connectionError) = Except.ok [err] ∧
      err.error_type = SupersetErrorType.CONNECTION_ACCESS_DENIED_ERROR ∧
      err.level = ErrorLevel.ERROR ∧
      err.extra = ExtraData.invalid ["username", "password"] :=
  ⟨rfl, cmic_access_denied_on_remote_failure
    ⟨some [("username", some "alice"), ("password", some "secret")]⟩
    (Cmic.PostResult.raise Cmic.Exc.connectionError) rfl rfl (Or.inr rfl)⟩

/- C5. -/

/-- The missing list is sorted in the lexicographic code-point order
Python's `sorted` uses. -/
theorem missingList_sorted (p : Cmic.ParametersDict) :
    List.Sorted (fun a b => Cmic.strLe a b = true) (Cmic.missingList p) := by
  unfold Cmic.missingList
  cases hpw : Cmic.presentKey p "password" <;> cases hun : Cmic.presentKey p "username" <;>
    simp [List.sorted_cons] <;> decide

/-- Every member of the missing list is a required field whose supplied
value is absent or falsy. -/
theorem missingList_forall (p : Cmic.ParametersDict) :
    ∀ f ∈ Cmic.missingList p, f ∈ Cmic.required ∧ Cmic.presentKey p f = false := by
  intro f hf
  unfold Cmic.missingList at hf
  cases hpw : Cmic.presentKey p "password" <;> cases hun : Cmic.presentKey p "username" <;>
    rw [hpw, hun] at hf <;> simp at hf
  · rcases hf with h | h <;> subst h <;>
      exact ⟨by simp [Cmic.required], by assumption⟩
  · subst hf; exact ⟨by simp [Cmic.required], hpw⟩
  · subst hf; exact ⟨by simp [Cmic.required], hun⟩

/-- The missing list shrinks when more fields become present. -/
theorem missingList_mono (p q : Cmic.ParametersDict)
    (h : ∀ k, Cmic.presentKey p k = true → Cmic.presentKey q k = true) :
    ∀ f ∈ Cmic.missingList q, f ∈ Cmic.missingList p := by
  intro f hf
  obtain ⟨hreq, hqf⟩ := missingList_forall q f hf
  have hpf : Cmic.presentKey p f = false := by
    cases hc : Cmic.presentKey p f with
    | false => rfl
    | true => rw [h f hc] at hqf; cases hqf
  unfold Cmic.required at hreq
  simp at hreq
  unfold Cmic.missingList
  rcases hreq with h1 | h1 <;> subst h1
  · cases hq2 : Cmic.presentKey p "password" <;> simp [hq2, hpf]
  · cases hq2 : Cmic.presentKey p "username" <;> simp [hq2, hpf]

/-- A member of the missing-parameters error list carries the missing list
as its extra data. -/
theorem mem_missingErrors_extra (p : Cmic.ParametersDict) (err : SupersetError)
    (hmem : err ∈ Cmic.missingErrors p) :
    err.extra = ExtraData.missing (Cmic.missingList p) := by
  unfold Cmic.missingErrors at hmem
  cases hml : Cmic.missingList p with
  | nil => rw [hml] at hmem; simp at hmem
  | cons a t =>
    rw [hml] at hmem
    simp at hmem
    subst hmem
    simp [Cmic.mkMissingError, hml]

/-- C5: every field named in the `extra.missing` data of a
missing-parameters error emitted by `validate_parameters` is a required
field whose supplied value is absent or falsy, the missing list is sorted,
and supplying more fields never grows the missing list. -/
theorem cmic_missing_errors_sound_sorted_monotone :
    (∀ (properties : Cmic.CmicPropertiesType) (remote : Cmic.PostResult)
        (errs : List SupersetError),
      Cmic.validate_parameters properties remote = Except.ok errs →
      ∀ err ∈ errs,
        err.error_type = SupersetErrorType.CONNECTION_MISSING_PARAMETERS_ERROR →
        err.extra = ExtraData.missing (Cmic.missingList (properties.parameters.getD [])) ∧
        List.Sorted (fun a b => Cmic.strLe a b = true)
          (Cmic.missingList (properties.parameters.getD [])) ∧
        ∀ f ∈ Cmic.missingList (properties.parameters.getD []),
          f ∈ Cmic.required ∧
          Cmic.presentKey (properties.parameters.getD []) f = false) ∧
    (∀ p q : Cmic.ParametersDict,
      (∀ k, Cmic.presentKey p k = true → Cmic.presentKey q k = true) →
      ∀ f ∈ Cmic.missingList q, f ∈ Cmic.missingList p) := by
  constructor
  · intro properties remote errs hval err hmem htype
    refine ⟨?_, missingList_sorted _, missingList_forall _⟩
    simp only [Cmic.validate_parameters] at hval
    split at hval
    · injection hval with h
      subst h
      exact mem_missingErrors_extra _ err hmem
    · injection hval with h
      subst h
      rcases List.mem_append.mp hmem with hmm | hmm
      · exact mem_missingErrors_extra _ err hmm
      · simp at hmm
        subst hmm
        exact absurd htype (by decide)
    · injection hval with h
      subst h
      rcases List.mem_append.mp hmem with hmm | hmm
      · exact mem_missingErrors_extra _ err hmm
      · simp at hmm
        subst hmm
        exact absurd htype (by decide)
    · exact absurd hval (by simp)
  · exact missingList_mono

/-- C5 witness: with only a username supplied, the one returned error is
the missing-parameters WARNING, its extra data is the missing list, the
list is sorted, and every member is a required absent field. -/
theorem cmic_missing_errors_sound_witness :
    Cmic.validate_parameters ⟨some [("username", some "a")]⟩ (Cmic.PostResult.ok []) =
      Except.ok [Cmic.mkMissingError ["password"]] ∧
    (Cmic.mkMissingError ["password"]).extra =
      ExtraData.missing (Cmic.missingList [("username", some "a")]) ∧
    List.Sorted (fun a b => Cmic.strLe a b = true)
      (Cmic.missingList [("username", some "a")]) ∧
    (∀ f ∈ Cmic.missingList [("username", some "a")],
      f ∈ Cmic.required ∧ Cmic.presentKey [("username", some "a")] f = false) :=
  ⟨rfl, cmic_missing_errors_sound_sorted_monotone.1 ⟨some [("username", some "a")]⟩
    (Cmic.PostResult.ok []) [Cmic.mkMissingError ["password"]] rfl
    (Cmic.mkMissingError ["password"]) (List.mem_singleton.mpr rfl) rfl⟩

/- C6. -/

/-- `classify` returns the entry of the least-index matching pattern: if
every pattern before index `i` fails and the one at `i` matches, the result
is built from the entry at `i`. -/
theorem classify_eq_of_least (text : String) :
    ∀ (table : List ErrorPattern) (i : Nat) (hi : i < table.length)
      (groups : List (String × String)),
      (∀ k (hk : k < table.length), k < i → (table.get ⟨k, hk⟩).matcher text = none) →
      (table.get ⟨i, hi⟩).matcher text = some groups →
      classify text table = some (mkClassifiedError (table.get ⟨i, hi⟩) groups) := by
  intro table
  induction table with
  | nil => intro i hi; exact absurd hi (by simp)
  | cons p rest ih =>
    intro i hi groups hleast hmatch
    cases i with
    | zero =>
      have hp : p.matcher text = some groups := hmatch
      simp [classify, hp]
    | succ n =>
      have h0 : p.matcher text = none := hleast 0 (by simp) (Nat.succ_pos n)
      have hrec := ih n (Nat.lt_of_succ_lt_succ hi) groups
        (fun k hk hkn =>
          hleast (k + 1) (Nat.succ_lt_succ hk) (Nat.succ_lt_succ hkn))
        hmatch
      simp [classify, h0]
      exact hrec

/-- C6: over the Apex pattern table, when the patterns at indices `i < j`
both match the input and `i` is least among the matching indices, the
classification carries the category of the pattern at index `i`. -/
theorem apex_classify_first_match_wins :
    ∀ (text : String) (i j : Nat) (hi : i < Apex.custom_errors.length)
      (hj : j < Apex.custom_errors.length),
      i < j →
      ((Apex.custom_errors.get ⟨i, hi⟩).matcher text).isSome = true →
      ((Apex.custom_errors.get ⟨j, hj⟩).matcher text).isSome = true →
      (∀ k (hk : k < Apex.custom_errors.length),
        ((Apex.custom_errors.get ⟨k, hk⟩).matcher text).isSome = true → i ≤ k) →
      ∃ ce, classify text Apex.custom_errors = some ce ∧
        ce.error_type = (Apex.custom_errors.get ⟨i, hi⟩).error_type := by
  intro text i j hi hj hij hmi hmj hleast
  obtain ⟨g, hg⟩ := Option.isSome_iff_exists.mp hmi
  refine ⟨mkClassifiedError (Apex.custom_errors.get ⟨i, hi⟩) g, ?_, rfl⟩
  refine classify_eq_of_least text Apex.custom_errors i hi g ?_ hg
  intro k hk hki
  cases hmk : (Apex.custom_errors.get ⟨k, hk⟩).matcher text with
  | none => rfl
  | some g2 =>
    exact absurd (hleast k hk (by rw [hmk]; rfl)) (Nat.not_le.mpr hki)

/-- C6 witness: a text matching both the host-down pattern (index 1) and
the syntax-error pattern (index 2) but not the invalid-hostname pattern
(index 0) is classified into the host-down category, the first of the two
matching entries. -/
theorem apex_classify_first_match_wins_witness :
    ∃ ce, classify "Can't connect to Apex server on 'h' check the manual that corresponds to your Apex server version for the right syntax to use near 'x" Apex.custom_errors = some ce ∧
      ce.error_type = SupersetErrorType.CONNECTION_HOST_DOWN_ERROR :=
  apex_classify_first_match_wins
    "Can't connect to Apex server on 'h' check the manual that corresponds to your Apex server version for the right syntax to use near 'x"
    1 2 (by decide) (by decide) (by decide) (by decide) (by decide) (by decide)

/- C8. -/

/-- C8: an exception of any class other than `SupersetException` and
`requests.exceptions.ConnectionError` raised during the remote call is not
caught by `validate_parameters` and propagates to the caller. -/
theorem cmic_unanticipated_exception_propagates :
    ∀ (properties : Cmic.CmicPropertiesType) (e : Cmic.Exc),
      Cmic.caughtByValidate e = false →
      Cmic.validate_parameters properties (Cmic.PostResult.raise e) = Except.error e := by
  intro properties e he
  cases e with
  | supersetException m => exact absurd he (by simp [Cmic.caughtByValidate])
  | connectionError => exact absurd he (by simp [Cmic.caughtByValidate])
  | keyError k => rfl
  | typeError => rfl
  | otherException n => rfl

/-- C8 witness: a timeout-like exception is not among the caught classes
and propagates out of `validate_parameters` unchanged. -/
theorem cmic_unanticipated_exception_propagates_witness :
    Cmic.caughtByValidate (Cmic.Exc.otherException "Timeout") = false ∧
    Cmic.validate_parameters ⟨none⟩
        (Cmic.PostResult.raise (Cmic.Exc.otherException "Timeout")) =
      Except.error (Cmic.Exc.otherException "Timeout") :=
  ⟨rfl, cmic_unanticipated_exception_propagates ⟨none⟩ (Cmic.Exc.otherException "Timeout") rfl⟩

/- C4 and C9: the URI builder/parser pair.  First the percent-escaping
round trip, then the parser lemmas. -/

/-- Rebuilding a character from its own code point. -/
theorem char_ofNat_toNat (c : Char) : Char.ofNat c.toNat = c := by
  have h : c.toNat.isValidChar := c.valid
  simp only [Char.ofNat, dif_pos h, Char.ofNatAux]
  apply Char.ext
  apply UInt32.ext
  simp [Char.toNat, UInt32.toNat, BitVec.toNat_ofNatLt]

/-- Every code point fits in six hexadecimal digits. -/
theorem char_toNat_lt (c : Char) : c.toNat < 16777216 := by
  have h : c.val.toNat < 0xd800 ∨ (0xe000 ≤ c.val.toNat ∧ c.val.toNat < 0x110000) := c.valid
  show c.val.toNat < 16777216
  omega

/-- The escaper's hexadecimal digits decode to their values. -/
theorem hexVal_hexDigit : ∀ n, n < 16 → Cmic.hexVal (Cmic.hexDigit n) = n := by decide

/-- Decoding the six-digit escape of a character gives the character back. -/
theorem decode_encode (c : Char) :
    Cmic.decodeHex6 (Cmic.hexDigit (c.toNat / 1048576 % 16))
      (Cmic.hexDigit (c.toNat / 65536 % 16)) (Cmic.hexDigit (c.toNat / 4096 % 16))
      (Cmic.hexDigit (c.toNat / 256 % 16)) (Cmic.hexDigit (c.toNat / 16 % 16))
      (Cmic.hexDigit (c.toNat % 16)) = c := by
  unfold Cmic.decodeHex6
  rw [hexVal_hexDigit _ (Nat.mod_lt _ (by norm_num)),
    hexVal_hexDigit _ (Nat.mod_lt _ (by norm_num)),
    hexVal_hexDigit _ (Nat.mod_lt _ (by norm_num)),
    hexVal_hexDigit _ (Nat.mod_lt _ (by norm_num)),
    hexVal_hexDigit _ (Nat.mod_lt _ (by norm_num)),
    hexVal_hexDigit _ (Nat.mod_lt _ (by norm_num))]
  have harith : c.toNat / 1048576 % 16 * 1048576 + c.toNat / 65536 % 16 * 65536 +
      c.toNat / 4096 % 16 * 4096 + c.toNat / 256 % 16 * 256 +
      c.toNat / 16 % 16 * 16 + c.toNat % 16 = c.toNat := by
    have h := char_toNat_lt c
    omega
  rw [harith]
  exact char_ofNat_toNat c

/-- A safe character is not the escape marker. -/
theorem safe_ne_percent (c : Char) (h : Cmic.isSafeChar c = true) : c ≠ '%' := by
  intro heq
  rw [heq] at h
  exact absurd h (by decide)

/-- `unquoteChars` passes a non-`%` head through unchanged. -/
theorem unquoteChars_cons_ne (c : Char) (l : List Char) (h : c ≠ '%') :
    Cmic.unquoteChars (c :: l) = c :: Cmic.unquoteChars l := by
  rw [Cmic.unquoteChars.eq_def]
  split
  · simp_all
  · rename_i heq; injection heq with h1 _; exact absurd h1 h
  · rename_i heq; injection heq with h1 h2; rw [h1, h2]

/-- Percent-unescaping undoes percent-escaping. -/
theorem unquote_quote (l : List Char) : Cmic.unquoteChars (Cmic.quoteChars l) = l := by
  induction l with
  | nil => rfl
  | cons c rest ih =>
    cases h : Cmic.isSafeChar c with
    | true =>
      have hq : Cmic.quoteChars (c :: rest) = c :: Cmic.quoteChars rest := by
        simp [Cmic.quoteChars, h]
      rw [hq, unquoteChars_cons_ne c _ (safe_ne_percent c h), ih]
    | false =>
      have hq : Cmic.quoteChars (c :: rest) =
          '%' :: Cmic.hexDigit (c.toNat / 1048576 % 16) :: Cmic.hexDigit (c.toNat / 65536 % 16) ::
          Cmic.hexDigit (c.toNat / 4096 % 16) :: Cmic.hexDigit (c.toNat / 256 % 16) ::
          Cmic.hexDigit (c.toNat / 16 % 16) :: Cmic.hexDigit (c.toNat % 16) ::
          Cmic.quoteChars rest := by
        simp [Cmic.quoteChars, h, Cmic.encodeHex6]
      rw [hq]
      simp only [Cmic.unquoteChars]
      rw [ih, decode_encode]

/-- Hexadecimal digit characters are not URL delimiters. -/
theorem hexDigit_ne_delims : ∀ n, n < 16 →
    Cmic.hexDigit n ≠ ':' ∧ Cmic.hexDigit n ≠ '@' := by decide

/-- No character of an escaped component is a `:` or `@` delimiter. -/
theorem quoteChars_mem_ne (l : List Char) :
    ∀ c ∈ Cmic.quoteChars l, c ≠ ':' ∧ c ≠ '@' := by
  induction l with
  | nil => intro c hc; simp [Cmic.quoteChars] at hc
  | cons a rest ih =>
    intro c hc
    simp only [Cmic.quoteChars] at hc
    rcases List.mem_append.mp hc with h | h
    · cases ha : Cmic.isSafeChar a with
      | true =>
        rw [ha] at h
        simp at h
        subst h
        constructor <;> intro heq <;> rw [heq] at ha <;> exact absurd ha (by decide)
      | false =>
        rw [ha] at h
        simp only [if_neg, Bool.false_eq_true, not_false_eq_true, Cmic.encodeHex6] at h
        simp at h
        rcases h with h | h | h | h | h | h | h <;> subst h <;>
          first
          | exact ⟨by decide, by decide⟩
          | exact hexDigit_ne_delims _ (Nat.mod_lt _ (by norm_num))
    · exact ih c h

/-- `@` does not occur in an escaped component. -/
theorem quote_no_at (l : List Char) : '@' ∉ Cmic.quoteChars l :=
  fun hmem => (quoteChars_mem_ne l '@' hmem).2 rfl

/-- `:` does not occur in an escaped component. -/
theorem quote_no_colon (l : List Char) : ':' ∉ Cmic.quoteChars l :=
  fun hmem => (quoteChars_mem_ne l ':' hmem).1 rfl

/-- `@` does not occur in an escaped `username:password` userinfo. -/
theorem no_at_userinfo (a b : List Char) :
    '@' ∉ Cmic.quoteChars a ++ ':' :: Cmic.quoteChars b := by
  intro hmem
  rcases List.mem_append.mp hmem with h | h
  · exact quote_no_at a h
  · rcases List.mem_cons.mp h with h | h
    · exact absurd h (by decide)
    · exact quote_no_at b h

/-- `splitOnce` finds nothing when the separator does not occur. -/
theorem splitOnce_not_mem (sep : Char) (l : List Char) (h : sep ∉ l) :
    Cmic.splitOnce sep l = none := by
  induction l with
  | nil => rfl
  | cons c rest ih =>
    have hc : ¬ c = sep := fun heq => h (by rw [← heq]; exact List.mem_cons_self c rest)
    simp only [Cmic.splitOnce]
    rw [if_neg hc, ih (fun hm => h (List.mem_cons_of_mem c hm))]
    rfl

/-- `splitOnce` splits at the first separator occurrence. -/
theorem splitOnce_append (sep : Char) (l r : List Char) (h : sep ∉ l) :
    Cmic.splitOnce sep (l ++ sep :: r) = some (l, r) := by
  induction l with
  | nil => simp [Cmic.splitOnce]
  | cons c rest ih =>
    have hc : ¬ c = sep := fun heq => h (by rw [← heq]; exact List.mem_cons_self c rest)
    simp only [List.cons_append, Cmic.splitOnce]
    rw [if_neg hc, List.append_eq, ih (fun hm => h (List.mem_cons_of_mem c hm))]
    rfl

/-- The parser strips the scheme the builder emits, whatever follows it. -/
theorem splitScheme_build (tail : String) :
    Cmic.splitScheme (Cmic.drivername ++ "://" ++ tail).data = some tail.data := rfl

/-- The parser on a built URI reduces to userinfo processing. -/
theorem parse_scheme_tail (tail : String) :
    Cmic.get_parameters_from_uri (Cmic.drivername ++ "://" ++ tail) =
      (match Cmic.splitOnce '@' tail.data with
       | none => some ⟨none, none⟩
       | some (userinfo, _) =>
         match Cmic.splitOnce ':' userinfo with
         | none => some ⟨some (String.mk (Cmic.unquoteChars userinfo)), none⟩
         | some (a, b) =>
           some ⟨some (String.mk (Cmic.unquoteChars a)),
             some (String.mk (Cmic.unquoteChars b))⟩) := by
  unfold Cmic.get_parameters_from_uri
  rw [splitScheme_build]

/-- C4 counterexample: a parameters map with a password but no username
does not round-trip: the password is dropped by the rendering, so parsing
the built URI yields neither field. -/
theorem cmic_uri_round_trip_password_only_fails :
    Cmic.get_parameters_from_uri (Cmic.build_sqlalchemy_uri ⟨none, some "secret"⟩) =
      some ⟨none, none⟩ ∧
    (⟨none, none⟩ : Cmic.CmicParametersType) ≠ ⟨none, some "secret"⟩ :=
  ⟨rfl, by decide⟩

/-- C4 (amended): for every parameters map in which a present password
comes with a present username, parsing the built URI reproduces the
username/password fields exactly. -/
theorem cmic_uri_round_trip :
    ∀ (u p : Option String), (p.isSome = true → u.isSome = true) →
      Cmic.get_parameters_from_uri (Cmic.build_sqlalchemy_uri ⟨u, p⟩) = some ⟨u, p⟩ := by
  intro u p h
  cases u with
  | none =>
    cases p with
    | none => rfl
    | some ps => exact absurd (h rfl) (by simp)
  | some us =>
    cases p with
    | none =>
      show Cmic.get_parameters_from_uri
        (Cmic.drivername ++ "://" ++ (Cmic.quote us ++ "" ++ "@")) = some ⟨some us, none⟩
      rw [parse_scheme_tail]
      have hdata : (Cmic.quote us ++ "" ++ "@").data =
          Cmic.quoteChars us.data ++ '@' :: [] := by
        simp [String.data_append, Cmic.quote]
      rw [hdata]
      simp only [splitOnce_append '@' (Cmic.quoteChars us.data) [] (quote_no_at us.data),
        splitOnce_not_mem ':' (Cmic.quoteChars us.data) (quote_no_colon us.data),
        unquote_quote]
    | some ps =>
      show Cmic.get_parameters_from_uri
        (Cmic.drivername ++ "://" ++ (Cmic.quote us ++ (":" ++ Cmic.quote ps) ++ "@")) =
        some ⟨some us, some ps⟩
      rw [parse_scheme_tail]
      have hdata : (Cmic.quote us ++ (":" ++ Cmic.quote ps) ++ "@").data =
          (Cmic.quoteChars us.data ++ ':' :: Cmic.quoteChars ps.data) ++ '@' :: [] := by
        simp [String.data_append, Cmic.quote]
      rw [hdata]
      simp only [splitOnce_append '@'
          (Cmic.quoteChars us.data ++ ':' :: Cmic.quoteChars ps.data) []
          (no_at_userinfo us.data ps.data),
        splitOnce_append ':' (Cmic.quoteChars us.data) (Cmic.quoteChars ps.data)
          (quote_no_colon us.data),
        unquote_quote]

/-- C4 witness: the alice/secret example round-trips. -/
theorem cmic_uri_round_trip_witness :
    ((some "secret" : Option String).isSome = true →
      (some "alice" : Option String).isSome = true) ∧
    Cmic.get_parameters_from_uri (Cmic.build_sqlalchemy_uri ⟨some "alice", some "secret"⟩) =
      some ⟨some "alice", some "secret"⟩ :=
  ⟨fun _ => rfl, cmic_uri_round_trip (some "alice") (some "secret") (fun _ => rfl)⟩

/-- C9: `build_sqlalchemy_uri` is a total function on parameter maps (it
always returns a string and performs no effect in doing so): every result
carries the fixed scheme prefix, a fully absent map yields just the scheme,
and present fields are rendered escaped into the userinfo component. -/
theorem cmic_build_uri_total :
    (∀ parameters : Cmic.CmicParametersType, ∃ tail,
      Cmic.build_sqlalchemy_uri parameters = Cmic.drivername ++ "://" ++ tail) ∧
    Cmic.drivername ++ "://" = "mysql+mysqldb://" ∧
    Cmic.build_sqlalchemy_uri ⟨none, none⟩ = "mysql+mysqldb://" ∧
    (∀ us, Cmic.build_sqlalchemy_uri ⟨some us, none⟩ =
      Cmic.drivername ++ "://" ++ (Cmic.quote us ++ "" ++ "@")) ∧
    (∀ us ps, Cmic.build_sqlalchemy_uri ⟨some us, some ps⟩ =
      Cmic.drivername ++ "://" ++ (Cmic.quote us ++ (":" ++ Cmic.quote ps) ++ "@")) :=
  ⟨fun parameters => ⟨_, rfl⟩, rfl, rfl, fun us => rfl, fun us ps => rfl⟩
